import Mathlib

/-!
Shallow embedding of the digital-asset registry canister
(source: src/index.ts of the repository).

The two stable maps (`assetStorage : id → DigitalAsset`,
`creatorAssets : creatorId → asset id list`) are modelled as association
lists with get/insert-overwrite semantics (the `assetTransfers` map of the
source is declared but never read or written, so it is omitted).
Time (`ic.time` via `getCurrentDate`) and freshly generated UUIDs are passed
to each operation as explicit parameters.  Each handler is translated into a
function from the pre-state and the request to the pair of the post-state and
the outcome (`Except RegError …`); a thrown `AppError` becomes an `.error`
value carrying the state at the throw point, which in every handler is the
unmodified pre-state because all throws precede the first store write.
The rate limiter of `POST /assets` is advisory throttling over wall-clock
`Date.now` timers and is not modelled (it performs no store write).
-/

namespace AssetRegistry

inductive AssetType where
  | IMAGE
  | AUDIO
  | VIDEO
  | DOCUMENT
  | CODE
deriving DecidableEq, Repr

inductive AssetStatus where
  | ACTIVE
  | TRANSFERRED
  | REVOKED
  | DELETED
deriving DecidableEq, Repr

inductive TransferType where
  | FULL
  | LICENSE
deriving DecidableEq, Repr

structure Transfer where
  id : String
  fromId : String
  toId : String
  transferDate : Nat
  transferType : TransferType
deriving DecidableEq, Repr

structure AssetMetadata where
  fileFormat : String
  fileSize : Nat
  dimensions : Option String
  duration : Option Nat
  additionalTags : List String
deriving DecidableEq, Repr

structure DigitalAsset where
  id : String
  title : String
  description : String
  assetType : AssetType
  creatorId : String
  contentHash : String
  registrationDate : Nat
  lastModified : Nat
  transferHistory : List Transfer
  status : AssetStatus
  metadata : AssetMetadata
deriving DecidableEq, Repr

/-- Error taxonomy of the handlers.  Constructors correspond to the
`AppError` messages and status codes of the source; `InternalFault` is the
500 produced when a non-`AppError` exception (a TypeError from accessing
`.Some` on a `None` option) reaches `handleError`. -/
inductive RegError where
  | InvalidInput
  | Unauthorized
  | NotFound
  | InvalidState
  | RateLimited
  | InternalFault
deriving DecidableEq, Repr

/-- HTTP status code each error maps to in `handleError`. -/
def RegError.statusCode : RegError → Nat
  | .InvalidInput => 400
  | .Unauthorized => 403
  | .NotFound => 404
  | .InvalidState => 400
  | .RateLimited => 429
  | .InternalFault => 500

/-- `StableBTreeMap.get`: first binding of the key, if any. -/
def mapGet {α : Type} (m : List (String × α)) (k : String) : Option α :=
  match m with
  | [] => none
  | (k2, v) :: rest => if k2 = k then some v else mapGet rest k

/-- `StableBTreeMap.insert`: overwrite the binding of `k`, or add one. -/
def mapInsert {α : Type} (m : List (String × α)) (k : String) (v : α) :
    List (String × α) :=
  match m with
  | [] => [(k, v)]
  | (k2, v2) :: rest =>
      if k2 = k then (k2, v) :: rest else (k2, v2) :: mapInsert rest k v

/-- The canister state: `assetStorage` (map 0) and `creatorAssets` (map 1). -/
structure RegState where
  assetStorage : List (String × DigitalAsset)
  creatorAssets : List (String × List String)
deriving DecidableEq, Repr

def emptyState : RegState := ⟨[], []⟩

/-- `isAuthorized` (src/index.ts lines 341-347): `false` when the asset is
absent, otherwise whether the supplied user is the current `creatorId`. -/
def isAuthorized (st : RegState) (assetId userId : String) : Bool :=
  match mapGet st.assetStorage assetId with
  | none => false
  | some asset => asset.creatorId == userId

def isHexDigit (c : Char) : Bool :=
  ('0' ≤ c && c ≤ '9') || ('a' ≤ c && c ≤ 'f') || ('A' ≤ c && c ≤ 'F')

/-- The creator-id regex of `validateAssetRegistration`: 8-4-4-4-12
hexadecimal groups joined by hyphens, i.e. 36 characters with `-` exactly at
offsets 8, 13, 18 and 23 and hex digits everywhere else. -/
def isUuidFormat (s : String) : Bool :=
  let cs := s.toList
  cs.length == 36 &&
  (List.range 36).all (fun i =>
    if i == 8 || i == 13 || i == 18 || i == 23 then cs.getD i ' ' == '-'
    else isHexDigit (cs.getD i ' '))

/-- The content-hash regex of `validateAssetRegistration`: 64 hex chars. -/
def isContentHashFormat (s : String) : Bool :=
  s.length == 64 && s.toList.all isHexDigit

/-- Typed create request (the adapter delivers typed fields; `assetType` and
`metadata` are well-typed here, so the corresponding dynamic checks of
`validateAssetRegistration` always pass). -/
structure CreateRequest where
  title : String
  description : String
  assetType : AssetType
  creatorId : String
  contentHash : String
  metadata : AssetMetadata
deriving DecidableEq, Repr

/-- `validateAssetRegistration` (src/index.ts lines 323-339) on a typed
request: non-empty title of at most 100 chars, UUID-shaped creator id,
64-hex-char content hash. -/
def validAssetRegistration (r : CreateRequest) : Bool :=
  !(r.title == "") && r.title.length ≤ 100 &&
  isUuidFormat r.creatorId && isContentHashFormat r.contentHash

/-- `POST /assets` (lines 78-118): validate, build the asset with a fresh id,
insert it, then add the id to the creator index entry. -/
def createAsset (st : RegState) (r : CreateRequest) (newId : String)
    (now : Nat) : RegState × Except RegError DigitalAsset :=
  if !validAssetRegistration r then (st, .error .InvalidInput)
  else
    let asset : DigitalAsset :=
      { id := newId, title := r.title, description := r.description,
        assetType := r.assetType, creatorId := r.creatorId,
        contentHash := r.contentHash, registrationDate := now,
        lastModified := now, transferHistory := [], status := .ACTIVE,
        metadata := r.metadata }
    let st1 : RegState :=
      { st with assetStorage := mapInsert st.assetStorage newId asset }
    let st2 : RegState :=
      match mapGet st1.creatorAssets r.creatorId with
      | none =>
          { st1 with
              creatorAssets := mapInsert st1.creatorAssets r.creatorId [newId] }
      | some creatorAssetList =>
          { st1 with
              creatorAssets := mapInsert st1.creatorAssets r.creatorId
                (creatorAssetList ++ [newId]) }
    (st2, .ok asset)

/-- Result shape of `GET /creators/:creatorId/assets`. -/
structure PaginatedAssets where
  assets : List DigitalAsset
  total : Nat
  page : Nat
  limit : Nat
deriving DecidableEq, Repr

/-- `GET /creators/:creatorId/assets` (lines 134-158).  `slice(startIndex,
endIndex)` with `endIndex = startIndex + limit` is `drop`/`take`; the
`map`-to-null-then-filter over the slice is `filterMap`. -/
def getAssetsByCreator (st : RegState) (creatorId : String)
    (page limit : Nat) : PaginatedAssets :=
  match mapGet st.creatorAssets creatorId with
  | none => { assets := [], total := 0, page := page, limit := limit }
  | some allAssets =>
      let startIndex := (page - 1) * limit
      let paginated :=
        ((allAssets.drop startIndex).take limit).filterMap
          (fun assetId => mapGet st.assetStorage assetId)
      { assets := paginated, total := allAssets.length,
        page := page, limit := limit }

/-- `POST /assets/:id/transfer` (lines 161-221).  The authorization guard
runs before the `NotFound` lookup; on a FULL transfer the old creator's
index entry is read with an unguarded `.Some` (line 199), so an absent entry
raises a TypeError that `handleError` maps to a 500 (`InternalFault`) before
any write.  The updated asset keeps `asset.creatorId` (the spread at lines
189-194 overrides only `transferHistory`, `status` and `lastModified`). -/
def transferAsset (st : RegState) (assetId fromId toId : String)
    (transferType : TransferType) (transferId : String) (now : Nat) :
    RegState × Except RegError DigitalAsset :=
  if !isAuthorized st assetId fromId then (st, .error .Unauthorized)
  else
    match mapGet st.assetStorage assetId with
    | none => (st, .error .NotFound)
    | some asset =>
        if asset.status != .ACTIVE then (st, .error .InvalidState)
        else
          let transfer : Transfer :=
            { id := transferId, fromId := asset.creatorId, toId := toId,
              transferDate := now, transferType := transferType }
          let updatedAsset : DigitalAsset :=
            { asset with
                transferHistory := asset.transferHistory ++ [transfer],
                status := if transferType == .FULL then .TRANSFERRED
                          else .ACTIVE,
                lastModified := now }
          if transferType == .FULL then
            match mapGet st.creatorAssets asset.creatorId with
            | none => (st, .error .InternalFault)
            | some oldCreatorAssets =>
                let stA : RegState :=
                  { st with
                      creatorAssets := mapInsert st.creatorAssets
                        asset.creatorId
                        (oldCreatorAssets.filter (fun i => i != asset.id)) }
                let stB : RegState :=
                  match mapGet stA.creatorAssets toId with
                  | none =>
                      { stA with
                          creatorAssets :=
                            mapInsert stA.creatorAssets toId [asset.id] }
                  | some newCreatorAssets =>
                      { stA with
                          creatorAssets := mapInsert stA.creatorAssets toId
                            (newCreatorAssets ++ [asset.id]) }
                ({ stB with
                     assetStorage :=
                       mapInsert stB.assetStorage asset.id updatedAsset },
                 .ok updatedAsset)
          else
            ({ st with
                 assetStorage :=
                   mapInsert st.assetStorage asset.id updatedAsset },
             .ok updatedAsset)

/-- A metadata update request: fields present in the request body overwrite,
absent fields are retained (the shallow spread of lines 238-241). -/
structure MetadataPatch where
  fileFormat : Option String
  fileSize : Option Nat
  dimensions : Option (Option String)
  duration : Option (Option Nat)
  additionalTags : Option (List String)
deriving DecidableEq, Repr

def emptyPatch : MetadataPatch := ⟨none, none, none, none, none⟩

def mergeMetadata (old : AssetMetadata) (p : MetadataPatch) : AssetMetadata :=
  { fileFormat := p.fileFormat.getD old.fileFormat,
    fileSize := p.fileSize.getD old.fileSize,
    dimensions := p.dimensions.getD old.dimensions,
    duration := p.duration.getD old.duration,
    additionalTags := p.additionalTags.getD old.additionalTags }

/-- `PUT /assets/:id/metadata` (lines 224-252). -/
def updateAssetMetadata (st : RegState) (assetId creatorId : String)
    (patch : MetadataPatch) (now : Nat) :
    RegState × Except RegError DigitalAsset :=
  if !isAuthorized st assetId creatorId then (st, .error .Unauthorized)
  else
    match mapGet st.assetStorage assetId with
    | none => (st, .error .NotFound)
    | some asset =>
        let updatedAsset : DigitalAsset :=
          { asset with
              metadata := mergeMetadata asset.metadata patch,
              lastModified := now }
        ({ st with
             assetStorage := mapInsert st.assetStorage asset.id updatedAsset },
         .ok updatedAsset)

/-- `POST /assets/:id/revoke` (lines 255-284): guarded against an already
REVOKED asset. -/
def revokeAsset (st : RegState) (assetId creatorId : String) (now : Nat) :
    RegState × Except RegError DigitalAsset :=
  if !isAuthorized st assetId creatorId then (st, .error .Unauthorized)
  else
    match mapGet st.assetStorage assetId with
    | none => (st, .error .NotFound)
    | some asset =>
        if asset.status == .REVOKED then (st, .error .InvalidState)
        else
          let updatedAsset : DigitalAsset :=
            { asset with status := .REVOKED, lastModified := now }
          ({ st with
               assetStorage := mapInsert st.assetStorage asset.id updatedAsset },
           .ok updatedAsset)

/-- `DELETE /assets/:id` (lines 287-312): soft delete, with no status guard
(unlike revoke). -/
def deleteAsset (st : RegState) (assetId creatorId : String) (now : Nat) :
    RegState × Except RegError Unit :=
  if !isAuthorized st assetId creatorId then (st, .error .Unauthorized)
  else
    match mapGet st.assetStorage assetId with
    | none => (st, .error .NotFound)
    | some asset =>
        let updatedAsset : DigitalAsset :=
          { asset with status := .DELETED, lastModified := now }
        ({ st with
             assetStorage := mapInsert st.assetStorage asset.id updatedAsset },
         .ok ())

/-! ### Invariants (spec §3 I1, §8 P1) and store well-formedness -/

/-- Invariant I1 / property P1, decidable form: every stored asset's id is
in the index entry of its `creatorId` and in no other creator's entry. -/
def indexConsistentB (st : RegState) : Bool :=
  st.assetStorage.all (fun entry =>
    (match mapGet st.creatorAssets entry.2.creatorId with
     | none => false
     | some ids => ids.contains entry.1) &&
    st.creatorAssets.all (fun centry =>
      !(centry.2.contains entry.1) || (centry.1 == entry.2.creatorId)))

/-- Invariant I1 / property P1 as a proposition over arbitrary lookups. -/
def indexConsistent (st : RegState) : Prop :=
  ∀ assetId asset, mapGet st.assetStorage assetId = some asset →
    (∃ ids, mapGet st.creatorAssets asset.creatorId = some ids ∧
       assetId ∈ ids) ∧
    ∀ c ids, mapGet st.creatorAssets c = some ids → assetId ∈ ids →
      c = asset.creatorId

/-- The asset store binds each key to an asset whose `id` field is that key
(true of every state the handlers construct: each insert is keyed by the
stored record's own `id`). -/
def storageWFB (st : RegState) : Bool :=
  st.assetStorage.all (fun entry => entry.2.id == entry.1)

/-! ### Operation sequences -/

/-- A registry operation together with the request-level inputs the adapter
delivers, the fresh ids and the current time made explicit parameters. -/
inductive Op where
  | create (r : CreateRequest) (newId : String) (now : Nat)
  | transfer (assetId fromId toId : String) (transferType : TransferType)
      (transferId : String) (now : Nat)
  | updateMeta (assetId creatorId : String) (patch : MetadataPatch)
      (now : Nat)
  | revoke (assetId creatorId : String) (now : Nat)
  | softDelete (assetId creatorId : String) (now : Nat)
deriving DecidableEq, Repr

/-- The state reached by one operation (its outcome value discarded). -/
def applyOp (st : RegState) (op : Op) : RegState :=
  match op with
  | .create r newId now => (createAsset st r newId now).1
  | .transfer assetId fromId toId tt tid now =>
      (transferAsset st assetId fromId toId tt tid now).1
  | .updateMeta assetId creatorId patch now =>
      (updateAssetMetadata st assetId creatorId patch now).1
  | .revoke assetId creatorId now => (revokeAsset st assetId creatorId now).1
  | .softDelete assetId creatorId now =>
      (deleteAsset st assetId creatorId now).1

def applyOps (st : RegState) (ops : List Op) : RegState :=
  ops.foldl applyOp st

/-- Whether `op` is a create operation carrying `k` as the freshly generated
asset id (UUID generation makes a collision with an existing id impossible,
so sequences are considered under the hypothesis that this is `false` for
the tracked id). -/
def opCreatesId (op : Op) (k : String) : Bool :=
  match op with
  | .create _ newId _ => newId == k
  | _ => false

/-! ### A concrete execution: Scenario A then Scenario B of spec §8 -/

def demoU1 : String := "00000000-0000-0000-0000-000000000001"

def demoU2 : String := "00000000-0000-0000-0000-000000000002"

def demoHash : String :=
  "0000000000000000000000000000000000000000000000000000000000000000"

def demoMeta : AssetMetadata :=
  { fileFormat := "png", fileSize := 1024, dimensions := some "100x100",
    duration := none, additionalTags := [] }

def demoCreateReq : CreateRequest :=
  { title := "Mona Lisa Digital", description := "A digital artwork",
    assetType := .IMAGE, creatorId := demoU1, contentHash := demoHash,
    metadata := demoMeta }

/-- State after Scenario A: the asset `asset-1` registered by `demoU1`. -/
def demoSt1 : RegState := (createAsset emptyState demoCreateReq "asset-1" 0).1

/-- Scenario B: a FULL transfer of `asset-1` from `demoU1` to `demoU2`. -/
def demoFullTransfer : RegState × Except RegError DigitalAsset :=
  transferAsset demoSt1 "asset-1" demoU1 demoU2 .FULL "transfer-1" 1

/-- The asset record Scenario A stores under `asset-1`. -/
def demoAsset1 : DigitalAsset :=
  { id := "asset-1", title := "Mona Lisa Digital",
    description := "A digital artwork", assetType := .IMAGE,
    creatorId := demoU1, contentHash := demoHash, registrationDate := 0,
    lastModified := 0, transferHistory := [], status := .ACTIVE,
    metadata := demoMeta }

/-- The audit record appended by the Scenario B transfer. -/
def demoTransferRec : Transfer :=
  { id := "transfer-1", fromId := demoU1, toId := demoU2, transferDate := 1,
    transferType := .FULL }

/-- The asset record stored under `asset-1` after the Scenario B transfer. -/
def demoAsset2 : DigitalAsset :=
  { demoAsset1 with
      transferHistory := [demoTransferRec], status := .TRANSFERRED,
      lastModified := 1 }

/-- The state after Scenario B. -/
def demoSt2 : RegState := demoFullTransfer.1

/-! ### Basic facts about the association-list maps -/

theorem mapGet_mapInsert {α : Type} (m : List (String × α)) (k k' : String)
    (v : α) :
    mapGet (mapInsert m k v) k' = if k = k' then some v else mapGet m k' := by
  induction m with
  | nil => by_cases h : k = k' <;> simp [mapInsert, mapGet, h]
  | cons p rest ih =>
    obtain ⟨k2, v2⟩ := p
    by_cases h1 : k2 = k
    · subst h1
      by_cases h2 : k2 = k' <;> simp [mapInsert, mapGet, h2]
    · by_cases h2 : k2 = k'
      · subst h2
        have hne : k ≠ k2 := fun hx => h1 hx.symm
        simp [mapInsert, mapGet, h1, hne]
      · simp [mapInsert, mapGet, h1, h2, ih]

theorem mem_of_mapGet_eq_some {α : Type} {m : List (String × α)} {k : String}
    {v : α} (h : mapGet m k = some v) : (k, v) ∈ m := by
  induction m with
  | nil => simp [mapGet] at h
  | cons p rest ih =>
    obtain ⟨k2, v2⟩ := p
    by_cases h2 : k2 = k
    · subst h2
      simp [mapGet] at h
      subst h
      exact List.mem_cons_self _ _
    · simp [mapGet, h2] at h
      exact List.mem_cons_of_mem _ (ih h)

theorem storageWFB_id {st : RegState} {k : String} {a : DigitalAsset}
    (hwf : storageWFB st = true) (h : mapGet st.assetStorage k = some a) :
    a.id = k := by
  have hmem := mem_of_mapGet_eq_some h
  have hall := List.all_eq_true.mp hwf _ hmem
  simpa using hall

/-! ### Claim C1 -/

/-- C1: code evaluation at the failing input (Scenario A then Scenario B).
The authorized FULL transfer of the ACTIVE asset `asset-1` from `demoU1` to
`demoU2` succeeds, the status becomes TRANSFERRED, the history grows to
length 1, and the asset id moves from `demoU1`'s index entry to `demoU2`'s —
but the stored asset's `creatorId` is still `demoU1`, not `demoU2`: the
object spread building the updated asset (src/index.ts lines 189-194)
overrides only `transferHistory`, `status` and `lastModified`, never
assigning `creatorId = toId` as both the spec and the surrounding index
update intend. -/
theorem full_transfer_keeps_old_creatorId :
    demoFullTransfer.2.toOption.map
        (fun a => (a.status, a.creatorId, a.transferHistory.length)) =
      some (.TRANSFERRED, demoU1, 1) ∧
    demoU1 ≠ demoU2 ∧
    mapGet demoSt2.creatorAssets demoU1 = some [] ∧
    mapGet demoSt2.creatorAssets demoU2 = some ["asset-1"] ∧
    (mapGet demoSt2.assetStorage "asset-1").map (fun a => a.creatorId) =
      some demoU1 := by
  refine ⟨?_, ?_, ?_, ?_, ?_⟩ <;> decide

/-! ### Claim C2 -/

/-- C2: code evaluation showing invariant I1/P1 broken.  The state after
Scenario A satisfies the index-consistency invariant; the successful FULL
transfer of Scenario B then leaves `asset-1` in `demoU2`'s index entry while
the stored asset's `creatorId` is still `demoU1` (see C1), so the state
after this successful operation violates the invariant. -/
theorem index_consistency_broken_by_full_transfer :
    indexConsistentB demoSt1 = true ∧
    demoFullTransfer.2.toOption.isSome = true ∧
    indexConsistentB demoSt2 = false := by
  refine ⟨?_, ?_, ?_⟩ <;> decide

/-! ### Claim C3 -/

/-- C3, counterexample to the claim as stated: on the empty state every
mutating operation invoked with an absent asset id fails with
`Unauthorized` (403), not `NotFound` (404), because `isAuthorized` returns
`false` for an absent asset and every handler runs the authorization guard
before its `NotFound` lookup. -/
theorem missing_asset_rejected_as_unauthorized :
    transferAsset emptyState "ghost" demoU1 demoU2 .FULL "t" 0 =
      (emptyState, .error .Unauthorized) ∧
    updateAssetMetadata emptyState "ghost" demoU1 emptyPatch 0 =
      (emptyState, .error .Unauthorized) ∧
    revokeAsset emptyState "ghost" demoU1 0 =
      (emptyState, .error .Unauthorized) ∧
    deleteAsset emptyState "ghost" demoU1 0 =
      (emptyState, .error .Unauthorized) ∧
    RegError.Unauthorized ≠ RegError.NotFound :=
  ⟨rfl, rfl, rfl, rfl, by decide⟩

/-- C3 (amended): for every mutating operation invoked with an asset id that
is absent from the asset store, the operation fails with `Unauthorized` and
leaves the state unchanged, for every actor identifier supplied (the
`NotFound` branch of each handler is unreachable for absent ids). -/
theorem mutating_op_on_missing_asset_unauthorized (st : RegState)
    (assetId actor toId transferId : String) (tt : TransferType)
    (patch : MetadataPatch) (now : Nat)
    (h : mapGet st.assetStorage assetId = none) :
    transferAsset st assetId actor toId tt transferId now =
      (st, .error .Unauthorized) ∧
    updateAssetMetadata st assetId actor patch now =
      (st, .error .Unauthorized) ∧
    revokeAsset st assetId actor now = (st, .error .Unauthorized) ∧
    deleteAsset st assetId actor now = (st, .error .Unauthorized) := by
  have hauth : isAuthorized st assetId actor = false := by
    simp [isAuthorized, h]
  exact ⟨by simp [transferAsset, hauth], by simp [updateAssetMetadata, hauth],
    by simp [revokeAsset, hauth], by simp [deleteAsset, hauth]⟩

/-- Witness for the amended C3 at a concrete input. -/
theorem mutating_op_on_missing_asset_unauthorized_witness :
    transferAsset emptyState "nope" demoU2 demoU1 .LICENSE "t2" 3 =
      (emptyState, .error .Unauthorized) ∧
    updateAssetMetadata emptyState "nope" demoU2 emptyPatch 3 =
      (emptyState, .error .Unauthorized) ∧
    revokeAsset emptyState "nope" demoU2 3 =
      (emptyState, .error .Unauthorized) ∧
    deleteAsset emptyState "nope" demoU2 3 =
      (emptyState, .error .Unauthorized) :=
  mutating_op_on_missing_asset_unauthorized emptyState "nope" demoU2 demoU1
    "t2" .LICENSE emptyPatch 3 rfl

/-! ### Claim C4 -/

/-- C4 (P3, authorization with atomicity): every mutating operation on an
existing asset invoked with an actor identifier different from the asset's
current `creatorId` fails with `Unauthorized` and returns the state
unchanged — no write to either map happens before the authorization guard. -/
theorem unauthorized_actor_rejected_without_write (st : RegState)
    (assetId actor toId transferId : String) (tt : TransferType)
    (patch : MetadataPatch) (now : Nat) (asset : DigitalAsset)
    (h : mapGet st.assetStorage assetId = some asset)
    (hne : asset.creatorId ≠ actor) :
    transferAsset st assetId actor toId tt transferId now =
      (st, .error .Unauthorized) ∧
    updateAssetMetadata st assetId actor patch now =
      (st, .error .Unauthorized) ∧
    revokeAsset st assetId actor now = (st, .error .Unauthorized) ∧
    deleteAsset st assetId actor now = (st, .error .Unauthorized) := by
  have hauth : isAuthorized st assetId actor = false := by
    simp [isAuthorized, h, hne]
  exact ⟨by simp [transferAsset, hauth], by simp [updateAssetMetadata, hauth],
    by simp [revokeAsset, hauth], by simp [deleteAsset, hauth]⟩

/-- Witness for C4 at a concrete input: `demoU2` is not the creator of
`asset-1` in the Scenario A state. -/
theorem unauthorized_actor_rejected_without_write_witness :
    transferAsset demoSt1 "asset-1" demoU2 demoU1 .FULL "t3" 5 =
      (demoSt1, .error .Unauthorized) ∧
    updateAssetMetadata demoSt1 "asset-1" demoU2 emptyPatch 5 =
      (demoSt1, .error .Unauthorized) ∧
    revokeAsset demoSt1 "asset-1" demoU2 5 = (demoSt1, .error .Unauthorized) ∧
    deleteAsset demoSt1 "asset-1" demoU2 5 =
      (demoSt1, .error .Unauthorized) :=
  unauthorized_actor_rejected_without_write demoSt1 "asset-1" demoU2 demoU1
    "t3" .FULL emptyPatch 5 demoAsset1 (by decide) (by decide)

/-! ### Claim C5 -/

/-- C5 (P4, status legality): `TransferAsset` on an existing, non-ACTIVE
asset with the authorized actor fails with `InvalidState` and returns the
state unchanged (so the asset store, the creator index and in particular
the asset's `transferHistory` are untouched), for both transfer types. -/
theorem transfer_nonactive_fails_invalid_state (st : RegState)
    (assetId toId transferId : String) (tt : TransferType) (now : Nat)
    (asset : DigitalAsset)
    (h : mapGet st.assetStorage assetId = some asset)
    (hstatus : asset.status ≠ .ACTIVE) :
    transferAsset st assetId asset.creatorId toId tt transferId now =
      (st, .error .InvalidState) := by
  have hauth : isAuthorized st assetId asset.creatorId = true := by
    simp [isAuthorized, h]
  simp [transferAsset, hauth, h, hstatus]

/-- Witness for C5: Scenario D, re-transferring the now TRANSFERRED asset
of Scenario B. -/
theorem transfer_nonactive_fails_invalid_state_witness :
    transferAsset demoSt2 "asset-1" demoAsset2.creatorId demoU2 .FULL "t4" 7 =
      (demoSt2, .error .InvalidState) :=
  transfer_nonactive_fails_invalid_state demoSt2 "asset-1" demoU2 "t4" .FULL 7
    demoAsset2 (by decide) (by decide)

/-! ### Claim C6 -/

/-- C6 (LICENSE transfer frame): an authorized LICENSE transfer of an ACTIVE
asset appends exactly one Transfer record and updates `lastModified`, keeps
the status ACTIVE, leaves `creatorId` and every other asset field unchanged
(the record update below touches nothing else), and writes only the asset
store — the creator index of the post-state is exactly that of the
pre-state. -/
theorem license_transfer_frame (st : RegState)
    (assetId toId transferId : String) (now : Nat) (asset : DigitalAsset)
    (h : mapGet st.assetStorage assetId = some asset)
    (hactive : asset.status = .ACTIVE) :
    transferAsset st assetId asset.creatorId toId .LICENSE transferId now =
      ({ st with
           assetStorage := mapInsert st.assetStorage asset.id
             { asset with
                 transferHistory := asset.transferHistory ++
                   [{ id := transferId, fromId := asset.creatorId,
                      toId := toId, transferDate := now,
                      transferType := .LICENSE }],
                 status := .ACTIVE, lastModified := now } },
       .ok { asset with
               transferHistory := asset.transferHistory ++
                 [{ id := transferId, fromId := asset.creatorId,
                    toId := toId, transferDate := now,
                    transferType := .LICENSE }],
               status := .ACTIVE, lastModified := now }) := by
  have hauth : isAuthorized st assetId asset.creatorId = true := by
    simp [isAuthorized, h]
  simp [transferAsset, hauth, h, hactive]

/-- Witness for C6: Scenario C, a LICENSE transfer of the Scenario A asset
from `demoU1` to `demoU2`. -/
theorem license_transfer_frame_witness :
    transferAsset demoSt1 "asset-1" demoAsset1.creatorId demoU2 .LICENSE
        "transfer-2" 2 =
      ({ demoSt1 with
           assetStorage := mapInsert demoSt1.assetStorage demoAsset1.id
             { demoAsset1 with
                 transferHistory := demoAsset1.transferHistory ++
                   [{ id := "transfer-2", fromId := demoAsset1.creatorId,
                      toId := demoU2, transferDate := 2,
                      transferType := .LICENSE }],
                 status := .ACTIVE, lastModified := 2 } },
       .ok { demoAsset1 with
               transferHistory := demoAsset1.transferHistory ++
                 [{ id := "transfer-2", fromId := demoAsset1.creatorId,
                    toId := demoU2, transferDate := 2,
                    transferType := .LICENSE }],
               status := .ACTIVE, lastModified := 2 }) :=
  license_transfer_frame demoSt1 "asset-1" demoU2 "transfer-2" 2 demoAsset1
    (by decide) (by decide)

/-! ### Claim C7 -/

theorem length_filterMap_of_isSome {α β : Type} (f : α → Option β)
    (l : List α) (h : ∀ x ∈ l, (f x).isSome = true) :
    (l.filterMap f).length = l.length := by
  induction l with
  | nil => rfl
  | cons x xs ih =>
    have hx := h x (List.mem_cons_self x xs)
    cases hfx : f x with
    | none => rw [hfx] at hx; simp at hx
    | some b =>
        simp [List.filterMap_cons, hfx,
          ih (fun y hy => h y (List.mem_cons_of_mem x hy))]

/-- C7 (P5, pagination correctness): for a creator whose index entry holds
ids that all resolve in the asset store, `getAssetsByCreator` returns
exactly `min limit (total - (page-1)*limit)` assets (truncated subtraction
renders the `max 0` clamp) and reports `total` as the full count of the
creator's ids, for every `page ≥ 1` and `limit ≥ 1`; an unknown creator
yields the empty result object, not an error. -/
theorem pagination_correct (st : RegState) (creatorId : String)
    (page limit : Nat) (hp : 1 ≤ page) (hl : 1 ≤ limit) :
    (∀ ids, mapGet st.creatorAssets creatorId = some ids →
      (∀ assetId ∈ ids, (mapGet st.assetStorage assetId).isSome = true) →
      (getAssetsByCreator st creatorId page limit).assets.length =
        min limit (ids.length - (page - 1) * limit) ∧
      (getAssetsByCreator st creatorId page limit).total = ids.length) ∧
    (mapGet st.creatorAssets creatorId = none →
      getAssetsByCreator st creatorId page limit =
        { assets := [], total := 0, page := page, limit := limit }) := by
  constructor
  · intro ids hids hresolve
    constructor
    · simp only [getAssetsByCreator, hids]
      rw [length_filterMap_of_isSome]
      · simp [List.length_take, List.length_drop]
      · intro x hx
        exact hresolve x (List.drop_subset _ _ (List.take_subset _ _ hx))
    · simp [getAssetsByCreator, hids]
  · intro hnone
    simp [getAssetsByCreator, hnone]

/-- Witness for C7: Scenario A state, whose single index entry for `demoU1`
holds the one resolving id; and an unknown creator `demoU2`. -/
theorem pagination_correct_witness :
    ((∀ ids, mapGet demoSt1.creatorAssets demoU1 = some ids →
      (∀ assetId ∈ ids,
        (mapGet demoSt1.assetStorage assetId).isSome = true) →
      (getAssetsByCreator demoSt1 demoU1 1 10).assets.length =
        min 10 (ids.length - (1 - 1) * 10) ∧
      (getAssetsByCreator demoSt1 demoU1 1 10).total = ids.length) ∧
    (mapGet demoSt1.creatorAssets demoU1 = none →
      getAssetsByCreator demoSt1 demoU1 1 10 =
        { assets := [], total := 0, page := 1, limit := 10 })) ∧
    ((∀ ids, mapGet demoSt1.creatorAssets demoU2 = some ids →
      (∀ assetId ∈ ids,
        (mapGet demoSt1.assetStorage assetId).isSome = true) →
      (getAssetsByCreator demoSt1 demoU2 2 7).assets.length =
        min 7 (ids.length - (2 - 1) * 7) ∧
      (getAssetsByCreator demoSt1 demoU2 2 7).total = ids.length) ∧
    (mapGet demoSt1.creatorAssets demoU2 = none →
      getAssetsByCreator demoSt1 demoU2 2 7 =
        { assets := [], total := 0, page := 2, limit := 7 })) :=
  ⟨pagination_correct demoSt1 demoU1 1 10 (by decide) (by decide),
   pagination_correct demoSt1 demoU2 2 7 (by decide) (by decide)⟩

/-! ### Claim C9 -/

/-- C9 (revoke/delete asymmetry): on an existing asset with the authorized
actor, `RevokeAsset` fails with `InvalidState` exactly when the status is
already REVOKED, while `DeleteAsset` succeeds for every status — including
an already DELETED asset — re-setting the status to DELETED. -/
theorem revoke_guarded_delete_unguarded (st : RegState) (assetId : String)
    (now : Nat) (asset : DigitalAsset)
    (h : mapGet st.assetStorage assetId = some asset) :
    ((revokeAsset st assetId asset.creatorId now).2 =
        .error .InvalidState ↔ asset.status = .REVOKED) ∧
    deleteAsset st assetId asset.creatorId now =
      ({ st with
           assetStorage := mapInsert st.assetStorage asset.id
             { asset with status := .DELETED, lastModified := now } },
       .ok ()) := by
  have hauth : isAuthorized st assetId asset.creatorId = true := by
    simp [isAuthorized, h]
  constructor
  · by_cases hrev : asset.status = .REVOKED <;>
      simp [revokeAsset, hauth, h, hrev]
  · simp [deleteAsset, hauth, h]

/-- Witness for C9 on the already-deleted asset: after deleting `asset-1`
the stored record has status DELETED, and deleting again still succeeds. -/
theorem revoke_guarded_delete_unguarded_witness :
    ((revokeAsset demoSt1 "asset-1" demoAsset1.creatorId 4).2 =
        .error .InvalidState ↔ demoAsset1.status = .REVOKED) ∧
    deleteAsset demoSt1 "asset-1" demoAsset1.creatorId 4 =
      ({ demoSt1 with
           assetStorage := mapInsert demoSt1.assetStorage demoAsset1.id
             { demoAsset1 with status := .DELETED, lastModified := 4 } },
       .ok ()) :=
  revoke_guarded_delete_unguarded demoSt1 "asset-1" 4 demoAsset1 (by decide)

/-! ### Claim C10 -/

/-- C10 (safety of the unguarded index read): for an existing ACTIVE asset
and the authorized actor, a FULL transfer reads the old creator's index
entry without a presence check.  On any state satisfying the I1 consistency
invariant the entry is present, the access is safe and the operation
succeeds, so the internal-error branch is unreachable; on a state where the
entry is absent the operation fails with the internal server fault (500) —
an error outside the defined taxonomy — with the state unchanged (no store
write). -/
theorem full_transfer_index_read_safety (st : RegState)
    (assetId toId transferId : String) (now : Nat) (asset : DigitalAsset)
    (h : mapGet st.assetStorage assetId = some asset)
    (hactive : asset.status = .ACTIVE) :
    (indexConsistent st →
      ∃ a2, (transferAsset st assetId asset.creatorId toId .FULL transferId
        now).2 = .ok a2) ∧
    (mapGet st.creatorAssets asset.creatorId = none →
      transferAsset st assetId asset.creatorId toId .FULL transferId now =
        (st, .error .InternalFault)) ∧
    RegError.InternalFault.statusCode = 500 := by
  have hauth : isAuthorized st assetId asset.creatorId = true := by
    simp [isAuthorized, h]
  refine ⟨?_, ?_, rfl⟩
  · intro hinv
    obtain ⟨⟨ids, hids, -⟩, -⟩ := hinv assetId asset h
    simp [transferAsset, hauth, h, hactive, hids]
  · intro hnone
    simp [transferAsset, hauth, h, hactive, hnone]

/-- Witness for C10 at the Scenario A state (where the entry is present). -/
theorem full_transfer_index_read_safety_witness :
    (indexConsistent demoSt1 →
      ∃ a2, (transferAsset demoSt1 "asset-1" demoAsset1.creatorId demoU2
        .FULL "t5" 6).2 = .ok a2) ∧
    (mapGet demoSt1.creatorAssets demoAsset1.creatorId = none →
      transferAsset demoSt1 "asset-1" demoAsset1.creatorId demoU2 .FULL "t5"
          6 =
        (demoSt1, .error .InternalFault)) ∧
    RegError.InternalFault.statusCode = 500 :=
  full_transfer_index_read_safety demoSt1 "asset-1" demoU2 "t5" 6 demoAsset1
    (by decide) (by decide)

/-! ### Claim C8 -/

/-- Every operation either leaves the asset store untouched, inserts a
fresh record under the create operation's new id, or overwrites the record
looked up during the operation with one whose `transferHistory` extends the
old one — no operation shrinks or rewrites an existing history. -/
theorem applyOp_storage_shape (st : RegState) (op : Op) :
    (applyOp st op).assetStorage = st.assetStorage ∨
    (∃ newId v, opCreatesId op newId = true ∧ v.id = newId ∧
       (applyOp st op).assetStorage = mapInsert st.assetStorage newId v) ∨
    (∃ assetId asset v tail,
       mapGet st.assetStorage assetId = some asset ∧ v.id = asset.id ∧
       v.transferHistory = asset.transferHistory ++ tail ∧
       (applyOp st op).assetStorage = mapInsert st.assetStorage asset.id v) := by
  cases op with
  | create r newId now =>
      by_cases hval : validAssetRegistration r = true
      · refine Or.inr (Or.inl ⟨newId,
          { id := newId, title := r.title, description := r.description,
            assetType := r.assetType, creatorId := r.creatorId,
            contentHash := r.contentHash, registrationDate := now,
            lastModified := now, transferHistory := [], status := .ACTIVE,
            metadata := r.metadata },
          by simp [opCreatesId], rfl, ?_⟩)
        cases hc : mapGet st.creatorAssets r.creatorId <;>
          simp [applyOp, createAsset, hval, hc]
      · have hf : validAssetRegistration r = false := by simpa using hval
        exact Or.inl (by simp [applyOp, createAsset, hf])
  | transfer assetId fromId toId tt tid now =>
      by_cases hauth : isAuthorized st assetId fromId = true
      · cases hA : mapGet st.assetStorage assetId with
        | none => exact Or.inl (by simp [applyOp, transferAsset, hauth, hA])
        | some asset =>
            by_cases hact : asset.status = .ACTIVE
            · cases tt with
              | FULL =>
                  cases hO : mapGet st.creatorAssets asset.creatorId with
                  | none =>
                      exact Or.inl (by
                        simp [applyOp, transferAsset, hauth, hA, hact, hO])
                  | some oldList =>
                      refine Or.inr (Or.inr ⟨assetId, asset,
                        { asset with
                            transferHistory := asset.transferHistory ++
                              [{ id := tid, fromId := asset.creatorId,
                                 toId := toId, transferDate := now,
                                 transferType := .FULL }],
                            status := .TRANSFERRED, lastModified := now },
                        [{ id := tid, fromId := asset.creatorId,
                           toId := toId, transferDate := now,
                           transferType := .FULL }],
                        hA, rfl, rfl, ?_⟩)
                      cases hN : mapGet (mapInsert st.creatorAssets
                          asset.creatorId
                          (oldList.filter (fun i => i != asset.id))) toId <;>
                        simp [applyOp, transferAsset, hauth, hA, hact, hO, hN]
              | LICENSE =>
                  refine Or.inr (Or.inr ⟨assetId, asset,
                    { asset with
                        transferHistory := asset.transferHistory ++
                          [{ id := tid, fromId := asset.creatorId,
                             toId := toId, transferDate := now,
                             transferType := .LICENSE }],
                        status := .ACTIVE, lastModified := now },
                    [{ id := tid, fromId := asset.creatorId, toId := toId,
                       transferDate := now, transferType := .LICENSE }],
                    hA, rfl, rfl, ?_⟩)
                  simp [applyOp, transferAsset, hauth, hA, hact]
            · exact Or.inl (by
                simp [applyOp, transferAsset, hauth, hA, hact])
      · have hf : isAuthorized st assetId fromId = false := by simpa using hauth
        exact Or.inl (by simp [applyOp, transferAsset, hf])
  | updateMeta assetId creatorId patch now =>
      by_cases hauth : isAuthorized st assetId creatorId = true
      · cases hA : mapGet st.assetStorage assetId with
        | none =>
            exact Or.inl (by simp [applyOp, updateAssetMetadata, hauth, hA])
        | some asset =>
            refine Or.inr (Or.inr ⟨assetId, asset,
              { asset with
                  metadata := mergeMetadata asset.metadata patch,
                  lastModified := now },
              [], hA, rfl, by simp, ?_⟩)
            simp [applyOp, updateAssetMetadata, hauth, hA]
      · have hf : isAuthorized st assetId creatorId = false := by
          simpa using hauth
        exact Or.inl (by simp [applyOp, updateAssetMetadata, hf])
  | revoke assetId creatorId now =>
      by_cases hauth : isAuthorized st assetId creatorId = true
      · cases hA : mapGet st.assetStorage assetId with
        | none => exact Or.inl (by simp [applyOp, revokeAsset, hauth, hA])
        | some asset =>
            by_cases hrev : asset.status = .REVOKED
            · exact Or.inl (by simp [applyOp, revokeAsset, hauth, hA, hrev])
            · refine Or.inr (Or.inr ⟨assetId, asset,
                { asset with status := .REVOKED, lastModified := now },
                [], hA, rfl, by simp, ?_⟩)
              simp [applyOp, revokeAsset, hauth, hA, hrev]
      · have hf : isAuthorized st assetId creatorId = false := by
          simpa using hauth
        exact Or.inl (by simp [applyOp, revokeAsset, hf])
  | softDelete assetId creatorId now =>
      by_cases hauth : isAuthorized st assetId creatorId = true
      · cases hA : mapGet st.assetStorage assetId with
        | none => exact Or.inl (by simp [applyOp, deleteAsset, hauth, hA])
        | some asset =>
            refine Or.inr (Or.inr ⟨assetId, asset,
              { asset with status := .DELETED, lastModified := now },
              [], hA, rfl, by simp, ?_⟩)
            simp [applyOp, deleteAsset, hauth, hA]
      · have hf : isAuthorized st assetId creatorId = false := by
          simpa using hauth
        exact Or.inl (by simp [applyOp, deleteAsset, hf])

theorem all_mapInsert {α : Type} (p : String × α → Bool)
    (m : List (String × α)) (k : String) (v : α)
    (hm : m.all p = true) (hv : p (k, v) = true) :
    (mapInsert m k v).all p = true := by
  induction m with
  | nil => simp [mapInsert, hv]
  | cons q rest ih =>
    obtain ⟨k2, v2⟩ := q
    simp only [List.all_cons, Bool.and_eq_true] at hm
    by_cases h2 : k2 = k
    · subst h2
      simp [mapInsert, List.all_cons, hm.2, hv]
    · simp [mapInsert, h2, List.all_cons, hm.1, ih hm.2]

/-- Every operation preserves store well-formedness: each insert into the
asset store is keyed by the inserted record's own `id`. -/
theorem storageWFB_applyOp (st : RegState) (op : Op)
    (hwf : storageWFB st = true) : storageWFB (applyOp st op) = true := by
  rcases applyOp_storage_shape st op with heq |
    ⟨newId, v, -, hid, heq⟩ | ⟨assetId, asset, v, tail, hget, hid, -, heq⟩
  · simpa only [storageWFB, heq] using hwf
  · simp only [storageWFB] at hwf ⊢
    rw [heq]
    exact all_mapInsert _ _ _ _ hwf (by simp [hid])
  · simp only [storageWFB] at hwf ⊢
    rw [heq]
    exact all_mapInsert _ _ _ _ hwf (by simp [hid])

/-- One operation: the record stored under any existing id `k` stays
present and its history is only ever extended on the right, provided the
operation is not a create reusing `k` as its fresh id. -/
theorem history_extends_applyOp (st : RegState) (op : Op) (k : String)
    (a : DigitalAsset) (hwf : storageWFB st = true)
    (h : mapGet st.assetStorage k = some a)
    (hfresh : opCreatesId op k = false) :
    ∃ a2 tail, mapGet (applyOp st op).assetStorage k = some a2 ∧
      a2.transferHistory = a.transferHistory ++ tail := by
  rcases applyOp_storage_shape st op with heq |
    ⟨newId, v, hop, -, heq⟩ | ⟨assetId, asset, v, tail, hget, hid, hhist, heq⟩
  · exact ⟨a, [], by rw [heq, h], by simp⟩
  · have hne : ¬(newId = k) := by
      intro hcontra
      subst hcontra
      simp [hop] at hfresh
    refine ⟨a, [], ?_, by simp⟩
    rw [heq, mapGet_mapInsert]
    simp [hne, h]
  · by_cases hk : asset.id = k
    · have hkey : asset.id = assetId := storageWFB_id hwf hget
      have hak : assetId = k := by rw [← hkey, hk]
      subst hak
      have haa : asset = a := by
        rw [h] at hget
        exact (Option.some.inj hget).symm
      subst haa
      refine ⟨v, tail, ?_, hhist⟩
      rw [heq, mapGet_mapInsert]
      simp [hk]
    · refine ⟨a, [], ?_, by simp⟩
      rw [heq, mapGet_mapInsert]
      simp [hk, h]

/-- C8 (P2/I2, history monotonicity): across any sequence of operations,
the record stored under an existing asset id remains present with a
`transferHistory` that is the original history extended on the right —
hence its length is non-decreasing and every previously appended Transfer
record (all its fields) is preserved unchanged.  Create operations are
assumed not to reuse the tracked id, which UUID generation guarantees. -/
theorem transfer_history_monotone (ops : List Op) (st : RegState)
    (k : String) (a : DigitalAsset) (hwf : storageWFB st = true)
    (h : mapGet st.assetStorage k = some a)
    (hfresh : ∀ op ∈ ops, opCreatesId op k = false) :
    ∃ a2 tail, mapGet (applyOps st ops).assetStorage k = some a2 ∧
      a2.transferHistory = a.transferHistory ++ tail ∧
      a.transferHistory.length ≤ a2.transferHistory.length := by
  induction ops generalizing st a with
  | nil => exact ⟨a, [], by simpa [applyOps] using h, by simp, Nat.le_refl _⟩
  | cons op rest ih =>
      obtain ⟨a1, t1, h1, e1⟩ := history_extends_applyOp st op k a hwf h
        (hfresh op (List.mem_cons_self op rest))
      obtain ⟨a2, t2, h2, e2, -⟩ := ih (applyOp st op) a1
        (storageWFB_applyOp st op hwf) h1
        (fun o ho => hfresh o (List.mem_cons_of_mem op ho))
      refine ⟨a2, t1 ++ t2, ?_, ?_, ?_⟩
      · simpa [applyOps] using h2
      · rw [e2, e1, List.append_assoc]
      · rw [e2, e1]
        simp [List.length_append]

/-- Witness for C8: the Scenario A state, tracking `asset-1` through a
LICENSE transfer followed by a metadata update and a revoke. -/
theorem transfer_history_monotone_witness :
    ∃ a2 tail,
      mapGet (applyOps demoSt1
        [.transfer "asset-1" demoU1 demoU2 .LICENSE "t9" 3,
         .updateMeta "asset-1" demoU1 emptyPatch 4,
         .revoke "asset-1" demoU1 5]).assetStorage "asset-1" = some a2 ∧
      a2.transferHistory = demoAsset1.transferHistory ++ tail ∧
      demoAsset1.transferHistory.length ≤ a2.transferHistory.length :=
  transfer_history_monotone
    [.transfer "asset-1" demoU1 demoU2 .LICENSE "t9" 3,
     .updateMeta "asset-1" demoU1 emptyPatch 4,
     .revoke "asset-1" demoU1 5]
    demoSt1 "asset-1" demoAsset1 (by decide) (by decide) (by decide)

end AssetRegistry
